import Mathlib

/-!
Shallow embedding of the iwexchanger marketplace bot
(`src/iwexchanger/model.py`, `src/iwexchanger/bot.py`).

Timestamps are modelled as integers (`now` is passed explicitly where the
source calls `datetime.now()`).  Trust scores (`sanity`) and coin balances
are modelled as integers where the source only does integer arithmetic on
freshly-loaded database rows, as rationals where Python true division
(`/`) occurs, and as reals where `math.sqrt` occurs.  Persistence, chat
transport and logging are out of scope; each handler is embedded as a
function from the data it reads to the data it writes plus the outward
message it produces.
-/

namespace IWExchanger

/-- `TradeStatus` from `model.py` (listing lifecycle). -/
inductive TradeStatus
  | PENDING
  | CHECKING
  | LAUNCHED
  | SOLD
  | TIMEDOUT
  | DISPUTED
  | VIOLATION
  deriving DecidableEq, Repr

/-- Numeric values of the `IntEnum` members, used by `<` comparisons in the source. -/
def TradeStatus.val : TradeStatus → Nat
  | .PENDING => 10
  | .CHECKING => 20
  | .LAUNCHED => 30
  | .SOLD => 50
  | .TIMEDOUT => 60
  | .DISPUTED => 70
  | .VIOLATION => 80

/-- `ExchangeStatus` from `model.py` (proposal lifecycle). -/
inductive ExchangeStatus
  | LAUNCHED
  | ACCEPTED
  | DECLINED
  | DISPUTED
  deriving DecidableEq, Repr

/-- A `Restriction` row as seen by `user_has_field`: its expiry timestamp
(`to` column) and the names of the fields it revokes. -/
structure RestrictionRow where
  toTime : Int
  fields : List String
  deriving DecidableEq, Repr

/-- A `UserLevel` row: the names of the fields it grants. -/
structure LevelRow where
  fields : List String
  deriving DecidableEq, Repr

/-- The part of a `User` row read by `user_has_field`: its restrictions and
its capability levels. -/
structure UserRow where
  restrictions : List RestrictionRow
  levels : List LevelRow
  deriving DecidableEq, Repr

/-- `user_has_field` (`bot.py` lines 109-123).  The source first iterates the
user's restrictions filtered by `Restriction.to > datetime.now()` and returns
`False` as soon as one names `"all"` or the queried field; only then does it
iterate the user's levels and return `True` as soon as one grants `"all"` or
the queried field; otherwise it returns `False`. -/
def user_has_field (now : Int) (user : UserRow) (field : String) : Bool :=
  if (user.restrictions.filter (fun r => now < r.toTime)).any
      (fun r => r.fields.any (fun f => f = "all" || f = field)) then
    false
  else
    user.levels.any (fun l => l.fields.any (fun f => f = "all" || f = field))

/-- The columns of a `Trade` row read by the proposal-eligibility guard and
the proposal-submission handlers. -/
structure TradeRow where
  status : TradeStatus
  available : Int
  deleted : Bool
  revision : Bool
  coins : Int
  deriving DecidableEq, Repr

/-- `Bot.check_trade` (`bot.py` lines 989-998).  Returns `some errorMessage`
when proposing against the trade is refused, `none` when it is allowed.
The availability test is reproduced exactly as in the source: it is nested
under a second `t.status != TradeStatus.LAUNCHED` test, which the first test
has already sent into the early return, so the nested branch can never fire.
`blacklisted` stands for the `BlackList` row lookup
(`BlackList.by == t.user, BlackList.of == user`). -/
def check_trade (now : Int) (t : TradeRow) (blacklisted : Bool) : Option String :=
  if t.status ≠ TradeStatus.LAUNCHED then
    some "⚠️ 交易当前未上架."
  else if t.status ≠ TradeStatus.LAUNCHED ∧ now < t.available then
    some "⚠️ 交易仅在指定时间后可用!"
  else if t.deleted then
    some "⚠️ 交易已被删除."
  else if blacklisted then
    some "⚠️ 对方已将您拉黑, 无法交易."
  else
    none

/-- Outcome of a completed trade as written by the auto-accept block of
`Bot.on_exchange_submitted` and by `Bot.on_trade_accept`: the new listing and
proposal statuses and the two parties' new trust scores. -/
structure TradeFinish where
  tradeStatus : TradeStatus
  exchStatus : ExchangeStatus
  ownerSanity : ℝ
  buyerSanity : ℝ

/-- Result of `Bot.on_exchange_submitted`.  `checkFailed` means `check_trade`
refused and no `Exchange` row was created; `finished` means an `Exchange` row
was created and immediately auto-accepted (non-revision listing); `waiting`
means an `Exchange` row was created with status `LAUNCHED` and the owner was
notified to review it (revision listing). -/
inductive SubmitResult
  | checkFailed (msg : String)
  | finished (r : TradeFinish)
  | waiting

/-- `Bot.on_exchange_submitted` (`bot.py` lines 1106-1154), restricted to the
data it reads and writes.  `owner` is `t.user.sanity`, `buyer` is the
proposer's (`e.user`) sanity.  On a non-revision listing the source sets
`e.status = ACCEPTED`, `t.status = SOLD`,
`e.user.sanity = min(e.user.sanity + max(sqrt(max(t.coins, 10)) / 20, 3), 100)` and
`t.user.sanity = min(t.user.sanity + max(sqrt(max(t.coins, 10)) / 5, 5), 100)`. -/
noncomputable def on_exchange_submitted (now : Int) (t : TradeRow) (blacklisted : Bool)
    (owner buyer : ℝ) : SubmitResult :=
  match check_trade now t blacklisted with
  | some msg => SubmitResult.checkFailed msg
  | none =>
    if !t.revision then
      SubmitResult.finished
        { tradeStatus := TradeStatus.SOLD
          exchStatus := ExchangeStatus.ACCEPTED
          ownerSanity := min (owner + max (Real.sqrt ((max t.coins 10 : Int) : ℝ) / 5) 5) 100
          buyerSanity := min (buyer + max (Real.sqrt ((max t.coins 10 : Int) : ℝ) / 20) 3) 100 }
    else
      SubmitResult.waiting

/-- `Bot.on_trade_accept` (`bot.py` lines 2089-2118).  Input: the statuses of
the targeted `Trade` and `Exchange`, the listing price `tCoins`, and the two
parties' trust scores.  Output: the post-state of those four fields, paired
with `some errorMessage` when the stale-state guard fired (in which case the
source returns before mutating anything) and `none` on success. -/
noncomputable def on_trade_accept (tStatus : TradeStatus) (eStatus : ExchangeStatus)
    (tCoins : Int) (owner buyer : ℝ) :
    (TradeStatus × ExchangeStatus × ℝ × ℝ) × Option String :=
  if tStatus ≠ TradeStatus.LAUNCHED ∨ eStatus ≠ ExchangeStatus.LAUNCHED then
    ((tStatus, eStatus, owner, buyer), some "⚠️ 该交易不再可用.")
  else
    ((TradeStatus.SOLD, ExchangeStatus.ACCEPTED,
      min (owner + max (Real.sqrt ((max tCoins 10 : Int) : ℝ) / 5) 5) 100,
      min (buyer + max (Real.sqrt ((max tCoins 10 : Int) : ℝ) / 20) 3) 100), none)

/-- Result of `Bot.on_exchange_coin`.  The three refusal constructors are the
three early returns of the source (each leaves every balance untouched);
`ok` carries the buyer's and seller's balances after the atomic transfer. -/
inductive CoinPurchase
  | unsupported
  | checkFailed (msg : String)
  | insufficient
  | ok (buyerCoins sellerCoins : Int)
  deriving DecidableEq, Repr

/-- `Bot.on_exchange_coin` (`bot.py` lines 1011-1033): price-based purchase.
Refused when the listing is not purchasable (`t.coins == 0 or t.revision`),
when `check_trade` refuses, or when `user.coins < t.coins`; otherwise
atomically debits the buyer and credits the seller the exact listed price. -/
def on_exchange_coin (now : Int) (t : TradeRow) (blacklisted : Bool)
    (buyerCoins sellerCoins : Int) : CoinPurchase :=
  if t.coins = 0 ∨ t.revision then
    CoinPurchase.unsupported
  else
    match check_trade now t blacklisted with
    | some msg => CoinPurchase.checkFailed msg
    | none =>
      if buyerCoins < t.coins then
        CoinPurchase.insufficient
      else
        CoinPurchase.ok (buyerCoins - t.coins) (sellerCoins + t.coins)

/-- Balances and trust read and written by the post-trade branch of
`Bot.on_report_accept`.  Coins are rationals because the source divides by 2
with Python true division. -/
structure PostTradeAccept where
  reporterCoins : ℚ
  reporteeCoins : ℚ
  reporteeSanity : ℚ
  deriving DecidableEq, Repr

/-- The non-`VIOLATION` (post-trade dispute) branch of `Bot.on_report_accept`
(`bot.py` lines 2006-2033).  The source sets `t.status = DISPUTED`, then
`reporter.coins += t.coins / 2`,
`reportee.sanity = max(reportee.sanity - dr.influence - 10, 0)` and
`reportee.coins -= t.coins / 2`, with no check that the reportee's balance
stays non-negative. -/
def on_report_accept_posttrade (tCoins influence : Int) (st : PostTradeAccept) :
    TradeStatus × PostTradeAccept :=
  (TradeStatus.DISPUTED,
   { reporterCoins := st.reporterCoins + (tCoins : ℚ) / 2
     reporteeCoins := st.reporteeCoins - (tCoins : ℚ) / 2
     reporteeSanity := max (st.reporteeSanity - (influence : ℚ) - 10) 0 })

/-- `Bot.on_violation` (`bot.py` lines 1889-1908): the admin violation ruling.
The source sets `t.status = TradeStatus.VIOLATION` and then
`t.user.sanity -= 30` with no clamp.  Input: the owner's trust score; output:
the new listing status and the owner's new trust score. -/
def on_violation (ownerSanity : Int) : TradeStatus × Int :=
  (TradeStatus.VIOLATION, ownerSanity - 30)

/-- Result of `Bot.on_delete`: either a refusal message (nothing written) or
the updated `Trade` row. -/
inductive DeleteResult
  | refused (msg : String)
  | ok (status : TradeStatus) (deleted : Bool)
  deriving DecidableEq, Repr

/-- `Bot.on_delete` (`bot.py` lines 1464-1481).  Refused when the trade is
already deleted, when `t.status < TradeStatus.DISPUTED` (IntEnum numeric
comparison), or when any `Dispute` row references the trade; otherwise only
the `deleted` flag is set. -/
def on_delete (status : TradeStatus) (deleted : Bool) (disputes : Nat) : DeleteResult :=
  if deleted then
    DeleteResult.refused "⚠️ 交易已经被删除."
  else if status.val < TradeStatus.DISPUTED.val then
    DeleteResult.refused "⚠️ 无法删除争议交易."
  else if disputes ≠ 0 then
    DeleteResult.refused "⚠️ 无法删除争议交易."
  else
    DeleteResult.ok status true

/-- Post-state of `Bot.on_report`: whether the operation was refused, the
answer shown to the reporter, the owner's trust score afterwards, and the
reporter's `VIOLATION` dispute on the trade afterwards (`some influence` when
one exists, `none` otherwise). -/
structure ReportOut where
  refusedMsg : Option String
  answer : String
  ownerSanity : Int
  dispute : Option Int
  deriving DecidableEq, Repr

/-- `Bot.on_report` (`bot.py` lines 1156-1183): the pre-trade violation
report toggle.  `ownerIsAdminTrade` is `user_has_field(t.user, "admin_trade")`;
`dispute` is `Dispute.get_or_none(user=user, trade=t, type=VIOLATION)`
rendered as the stored `influence` of that row.  With no existing dispute the
source creates one with `influence=10` and sets
`t.user.sanity = max(t.user.sanity - 10, 0)`; with an existing one it deletes
it and sets `t.user.sanity = min(t.user.sanity + d.influence, 100)`. -/
def on_report (ownerIsAdminTrade : Bool) (reporterSanity ownerSanity : Int)
    (dispute : Option Int) : ReportOut :=
  if ownerIsAdminTrade then
    { refusedMsg := some "⚠️ 无法举报管理员.", answer := "⚠️ 无法举报管理员."
      ownerSanity := ownerSanity, dispute := dispute }
  else if reporterSanity < max (ownerSanity - 10) 70 then
    { refusedMsg := some "⚠️ 您的信誉值低于70或低于对方, 无法举报."
      answer := "⚠️ 您的信誉值低于70或低于对方, 无法举报."
      ownerSanity := ownerSanity, dispute := dispute }
  else
    match dispute with
    | none =>
      { refusedMsg := none, answer := "✅ 成功举报."
        ownerSanity := max (ownerSanity - 10) 0, dispute := some 10 }
    | some infl =>
      { refusedMsg := none, answer := "✅ 成功取消举报."
        ownerSanity := min (ownerSanity + infl) 100, dispute := none }

/-- `ConversationStatus` from `bot.py` (wizard stage tags). -/
inductive ConversationStatus
  | WAITING_EXCHANGE
  | WAITING_EXCHANGE_DESC
  | WAITING_TRADE_NAME
  | WAITING_TRADE_DESC
  | WAITING_TRADE_PHOTO
  | WAITING_TRADE_GOOD
  | WAITING_EXCHANGE_FOR
  | WAITING_TRADE_START_TIME
  | WAITING_COINS
  | WAITING_SEARCH_TRADE
  | WAITING_USER
  | WAITING_MESSAGE
  | WAITING_FIELD
  | WAITING_REPORT
  | CHATING
  deriving DecidableEq, Repr

/-- A `Conversation` store entry: the wizard stage and the accumulated
parameter dictionary (insertion-ordered, as a Python `dict`).  The chat
context object is not modelled. -/
structure Conversation where
  status : ConversationStatus
  params : List (String × String)
  deriving DecidableEq, Repr

/-- Python `dict` update of a single key: replace the value in place when the
key is present, append the pair otherwise. -/
def dict_update (ps : List (String × String)) (k v : String) : List (String × String) :=
  if ps.any (fun p => p.1 = k) then
    ps.map (fun p => if p.1 = k then (k, v) else p)
  else
    ps ++ [(k, v)]

/-- `Bot.set_conversation` (`bot.py` lines 231-246) as a function on the
store entry for the given `(chat, user)` key.  `params = params or
current_params`, then `params.update(kw)`; the entry is replaced by a new
`Conversation` when a status is given and cleared otherwise. -/
def set_conversation (current : Option Conversation)
    (status : Option ConversationStatus)
    (params : Option (List (String × String)))
    (kw : List (String × String)) : Option Conversation :=
  let currentParams := match current with
    | some c => c.params
    | none => []
  let ps := match params with
    | some p => p
    | none => currentParams
  let ps := kw.foldl (fun acc pair => dict_update acc pair.1 pair.2) ps
  match status with
  | some s => some (Conversation.mk s ps)
  | none => none

/-- The outward effect of one `Bot.text_handler` turn.  `reply` is a direct
`message.reply` (re-prompt); `menu` is a `to_menu` dispatch carrying its
keyword arguments; `propagate` is `message.continue_propagation()`; `crash`
is an uncaught exception inside the branch, which the `useroper` wrapper
turns into the generic "⚠️ 发生错误." message; `other` covers branches not
modelled here. -/
inductive Action
  | reply (msg : String)
  | menu (target : String) (args : List (String × String))
  | propagate
  | crash
  | other
  deriving DecidableEq, Repr

/-- Python `message.text.startswith("/")`.  The prefix is the single
character `/`, so the test holds exactly when the first character is `/`;
it is modelled on the character list to keep it kernel-computable. -/
def starts_with_slash (text : String) : Bool :=
  text.data.head? = some '/'

/-- The validating branches of `Bot.text_handler` (`bot.py` lines 552-651)
for one text turn: the length-checked stages `WAITING_EXCHANGE_DESC`,
`WAITING_TRADE_NAME`, `WAITING_TRADE_DESC`, `WAITING_EXCHANGE_FOR` and the
numeric stage `WAITING_COINS`.  Returns the store entry for the
`(chat, user)` key after the branch ran, and the outward action.

`intParse` stands for the result of Python `int(message.text)` (`some c` on
success, `none` when `ValueError` is raised); `sanity` and `historySold` are
`user.sanity` and the count of the user's `SOLD` trades read inside the
`WAITING_COINS` branch.  In that branch the source sets `retry = True` on
`ValueError`, but then unconditionally evaluates
`(history_sold + 1) * 1000 * pow(user.sanity / 100, 10) < coins`, reading
the local `coins` that was never assigned: Python raises
`UnboundLocalError`, so the branch neither re-prompts nor touches the store
entry — modelled by `Action.crash`.  On a `to_menu` advance the entry is
returned unchanged because only the target menu's handler rewrites it. -/
def text_step (conv : Conversation) (text : String) (intParse : Option Int)
    (sanity : Int) (historySold : Nat) : Option Conversation × Action :=
  if starts_with_slash text then
    (some conv, Action.propagate)
  else
    match conv.status with
    | ConversationStatus.WAITING_EXCHANGE_DESC =>
      if text.length > 100 then
        (set_conversation (some conv) (some ConversationStatus.WAITING_EXCHANGE_DESC) none [],
         Action.reply "⚠️ 过长, 最大长度为100.")
      else
        (some conv, Action.menu "__exchange_submitted" (dict_update conv.params "exchange_desc" text))
    | ConversationStatus.WAITING_TRADE_NAME =>
      if text.length > 20 then
        (set_conversation (some conv) (some ConversationStatus.WAITING_TRADE_NAME) none [],
         Action.reply "⚠️ 过长, 最大长度为20.")
      else
        (some conv, Action.menu "__trade_add_desc" (dict_update conv.params "trade_name" text))
    | ConversationStatus.WAITING_TRADE_DESC =>
      if text.length > 100 then
        (set_conversation (some conv) (some ConversationStatus.WAITING_TRADE_DESC) none [],
         Action.reply "⚠️ 过长, 最大长度为100.")
      else
        (some conv, Action.menu "__trade_add_photo" (dict_update conv.params "trade_desc" text))
    | ConversationStatus.WAITING_EXCHANGE_FOR =>
      if text.length > 100 then
        (set_conversation (some conv) (some ConversationStatus.WAITING_EXCHANGE_FOR) none [],
         Action.reply "⚠️ 过长, 最大长度为100.")
      else
        (set_conversation (some conv) (some ConversationStatus.WAITING_COINS) none
           [("trade_exchange_for", text)],
         Action.reply "👉🏼 请输入您的物品的等值价值")
    | ConversationStatus.WAITING_COINS =>
      match intParse with
      | none => (some conv, Action.crash)
      | some coins =>
        if ((historySold : ℚ) + 1) * 1000 * ((sanity : ℚ) / 100) ^ 10 < (coins : ℚ) then
          (set_conversation (some conv) (some ConversationStatus.WAITING_COINS) none [],
           Action.reply "⚠️ 金额过大, 请进行更多交易或提升信用.")
        else if coins < 0 then
          (set_conversation (some conv) (some ConversationStatus.WAITING_COINS) none [],
           Action.reply "⚠️ 输入错误, 请重新输入.")
        else
          (some conv, Action.menu "__trade_set_start_time" (dict_update conv.params "trade_coins" (toString coins)))
    | _ => (some conv, Action.other)

/-! Helper lemmas shared by the claim theorems. -/

theorem sqrt_ten_le_fifteen : Real.sqrt 10 ≤ 15 :=
  Real.sqrt_le_iff.mpr (by norm_num)

theorem max_sqrt_ten_div_five : max (Real.sqrt 10 / 5) 5 = (5 : ℝ) :=
  max_eq_right (by have := sqrt_ten_le_fifteen; linarith)

theorem max_sqrt_ten_div_twenty : max (Real.sqrt 10 / 20) 3 = (3 : ℝ) :=
  max_eq_right (by have := sqrt_ten_le_fifteen; linarith)

theorem any_grant_iff (L : List String) (fname : String) :
    (L.any (fun f => f = "all" || f = fname) = true) ↔ ("all" ∈ L ∨ fname ∈ L) := by
  simp only [List.any_eq_true, Bool.or_eq_true, decide_eq_true_eq]
  constructor
  · rintro ⟨f, hf, h | h⟩ <;> subst h
    · exact Or.inl hf
    · exact Or.inr hf
  · rintro (h | h)
    · exact ⟨"all", h, Or.inl rfl⟩
    · exact ⟨fname, h, Or.inr rfl⟩

theorem restriction_denies_iff (now : Int) (u : UserRow) (fname : String) :
    ((u.restrictions.filter (fun r => now < r.toTime)).any
        (fun r => r.fields.any (fun f => f = "all" || f = fname)) = true) ↔
      (∃ r ∈ u.restrictions, now < r.toTime ∧ ("all" ∈ r.fields ∨ fname ∈ r.fields)) := by
  constructor
  · intro hb
    obtain ⟨r, hr, hgrant⟩ := List.any_eq_true.mp hb
    have hmem := List.mem_filter.mp hr
    exact ⟨r, hmem.1, of_decide_eq_true hmem.2, (any_grant_iff r.fields fname).mp hgrant⟩
  · rintro ⟨r, hr, hnow, hgrant⟩
    exact List.any_eq_true.mpr
      ⟨r, List.mem_filter.mpr ⟨hr, decide_eq_true hnow⟩, (any_grant_iff r.fields fname).mpr hgrant⟩

/-! Claim theorems. -/

/-- Claim C1: `Bot.on_trade_accept` succeeds only when the Trade is still
`LAUNCHED` and the Exchange is still `LAUNCHED`; then it sets the Exchange to
`ACCEPTED`, the Trade to `SOLD`, and applies the trust rewards.  If either
entity has left that pair of states it reports "⚠️ 该交易不再可用." and makes
no status or trust change. -/
theorem trade_accept_state_guard (ts : TradeStatus) (es : ExchangeStatus)
    (c : Int) (o b : ℝ) :
    (¬(ts = TradeStatus.LAUNCHED ∧ es = ExchangeStatus.LAUNCHED) →
      on_trade_accept ts es c o b = ((ts, es, o, b), some "⚠️ 该交易不再可用.")) ∧
    (ts = TradeStatus.LAUNCHED → es = ExchangeStatus.LAUNCHED →
      on_trade_accept ts es c o b =
        ((TradeStatus.SOLD, ExchangeStatus.ACCEPTED,
          min (o + max (Real.sqrt ((max c 10 : Int) : ℝ) / 5) 5) 100,
          min (b + max (Real.sqrt ((max c 10 : Int) : ℝ) / 20) 3) 100), none)) := by
  constructor
  · intro h
    have hc : ts ≠ TradeStatus.LAUNCHED ∨ es ≠ ExchangeStatus.LAUNCHED := by tauto
    unfold on_trade_accept
    rw [if_pos hc]
  · intro h1 h2
    unfold on_trade_accept
    rw [if_neg (by simp [h1, h2])]

/-- Witness for C1: a `SOLD` trade is refused with no state change; a
`LAUNCHED`/`LAUNCHED` pair is accepted with the reward formula applied. -/
theorem trade_accept_state_guard_witness :
    on_trade_accept TradeStatus.SOLD ExchangeStatus.LAUNCHED 0 50 50 =
      ((TradeStatus.SOLD, ExchangeStatus.LAUNCHED, 50, 50), some "⚠️ 该交易不再可用.") ∧
    on_trade_accept TradeStatus.LAUNCHED ExchangeStatus.LAUNCHED 0 50 50 =
      ((TradeStatus.SOLD, ExchangeStatus.ACCEPTED,
        min (50 + max (Real.sqrt ((max (0 : Int) 10 : Int) : ℝ) / 5) 5) 100,
        min (50 + max (Real.sqrt ((max (0 : Int) 10 : Int) : ℝ) / 20) 3) 100), none) :=
  ⟨(trade_accept_state_guard TradeStatus.SOLD ExchangeStatus.LAUNCHED 0 50 50).1 (by decide),
   (trade_accept_state_guard TradeStatus.LAUNCHED ExchangeStatus.LAUNCHED 0 50 50).2 rfl rfl⟩

/-- Claim C2: `user_has_field` returns `false` whenever some restriction with
expiry strictly after `now` names the field or `"all"`, regardless of the
user's levels; otherwise it is `true` iff some level grants the field or
`"all"`.  A restriction whose expiry is `≤ now` has no effect (it is
excluded by the filter, so the second clause applies whatever its fields). -/
theorem user_has_field_restriction_precedence (now : Int) (u : UserRow) (fname : String) :
    ((∃ r ∈ u.restrictions, now < r.toTime ∧ ("all" ∈ r.fields ∨ fname ∈ r.fields)) →
      user_has_field now u fname = false) ∧
    ((∀ r ∈ u.restrictions, now < r.toTime → ¬("all" ∈ r.fields ∨ fname ∈ r.fields)) →
      (user_has_field now u fname = true ↔
        ∃ l ∈ u.levels, "all" ∈ l.fields ∨ fname ∈ l.fields)) := by
  constructor
  · intro h
    unfold user_has_field
    rw [if_pos ((restriction_denies_iff now u fname).mpr h)]
  · intro h
    have hf : ((u.restrictions.filter (fun r => now < r.toTime)).any
        (fun r => r.fields.any (fun f => f = "all" || f = fname))) = false := by
      rw [Bool.eq_false_iff]
      intro hc
      obtain ⟨r, hr, hnow, hgrant⟩ := (restriction_denies_iff now u fname).mp hc
      exact h r hr hnow hgrant
    unfold user_has_field
    rw [if_neg (by simp [hf])]
    constructor
    · intro hb
      obtain ⟨l, hl, hgrant⟩ := List.any_eq_true.mp hb
      exact ⟨l, hl, (any_grant_iff l.fields fname).mp hgrant⟩
    · rintro ⟨l, hl, hgrant⟩
      exact List.any_eq_true.mpr ⟨l, hl, (any_grant_iff l.fields fname).mpr hgrant⟩

/-- Witness for C2: a user whose only restriction on `"trade"` expired at
time 0 is, at time 5, granted `"trade"` through their level. -/
theorem user_has_field_restriction_precedence_witness :
    user_has_field 5 ⟨[⟨0, ["trade"]⟩], [⟨["trade"]⟩]⟩ "trade" = true :=
  ((user_has_field_restriction_precedence 5 ⟨[⟨0, ["trade"]⟩], [⟨["trade"]⟩]⟩ "trade").2
      (by decide)).mpr (by decide)

/-- Claim C3: a proposal submitted against a non-revision listing that passes
`check_trade` is accepted immediately: the listing becomes `SOLD`, the
proposal `ACCEPTED`, the buyer's trust becomes
`min(buyer + max(sqrt(max(price,10))/20, 3), 100)` and the seller's
`min(seller + max(sqrt(max(price,10))/5, 5), 100)`; for price 0 the deltas
are exactly 3 and 5. -/
theorem exchange_auto_accept_rewards (now : Int) (t : TradeRow) (bl : Bool)
    (o b : ℝ) (hchk : check_trade now t bl = none) (hrev : t.revision = false) :
    on_exchange_submitted now t bl o b =
      SubmitResult.finished ⟨TradeStatus.SOLD, ExchangeStatus.ACCEPTED,
        min (o + max (Real.sqrt ((max t.coins 10 : Int) : ℝ) / 5) 5) 100,
        min (b + max (Real.sqrt ((max t.coins 10 : Int) : ℝ) / 20) 3) 100⟩ ∧
    (t.coins = 0 →
      on_exchange_submitted now t bl o b =
        SubmitResult.finished ⟨TradeStatus.SOLD, ExchangeStatus.ACCEPTED,
          min (o + 5) 100, min (b + 3) 100⟩) := by
  have h1 : on_exchange_submitted now t bl o b =
      SubmitResult.finished ⟨TradeStatus.SOLD, ExchangeStatus.ACCEPTED,
        min (o + max (Real.sqrt ((max t.coins 10 : Int) : ℝ) / 5) 5) 100,
        min (b + max (Real.sqrt ((max t.coins 10 : Int) : ℝ) / 20) 3) 100⟩ := by
    unfold on_exchange_submitted
    rw [hchk, hrev]
    rfl
  refine ⟨h1, fun hc => ?_⟩
  rw [h1, hc]
  have hcast : ((max (0 : Int) 10 : Int) : ℝ) = 10 := by norm_num
  rw [hcast, max_sqrt_ten_div_five, max_sqrt_ten_div_twenty]

/-- Witness for C3: submitting against a launched, non-revision listing
priced 0 immediately sells it and rewards buyer +3 and seller +5 (clamped). -/
theorem exchange_auto_accept_rewards_witness :
    on_exchange_submitted 0 ⟨TradeStatus.LAUNCHED, 0, false, false, 0⟩ false 50 60 =
      SubmitResult.finished ⟨TradeStatus.SOLD, ExchangeStatus.ACCEPTED,
        min (50 + 5) 100, min (60 + 3) 100⟩ :=
  (exchange_auto_accept_rewards 0 ⟨TradeStatus.LAUNCHED, 0, false, false, 0⟩ false 50 60
    rfl rfl).2 rfl

/-- Evaluation lemma for the `WAITING_COINS` branch of `text_step` on an
input that parsed as an integer. -/
theorem waiting_coins_eval (p : List (String × String)) (text : String)
    (c sanity : Int) (n : Nat) (hs : starts_with_slash text = false) :
    text_step ⟨ConversationStatus.WAITING_COINS, p⟩ text (some c) sanity n =
      (if ((n : ℚ) + 1) * 1000 * ((sanity : ℚ) / 100) ^ 10 < (c : ℚ) then
        (some ⟨ConversationStatus.WAITING_COINS, p⟩,
         Action.reply "⚠️ 金额过大, 请进行更多交易或提升信用.")
      else if c < 0 then
        (some ⟨ConversationStatus.WAITING_COINS, p⟩,
         Action.reply "⚠️ 输入错误, 请重新输入.")
      else
        (some ⟨ConversationStatus.WAITING_COINS, p⟩,
         Action.menu "__trade_set_start_time" (dict_update p "trade_coins" (toString c)))) := by
  simp only [text_step, hs, Bool.false_eq_true, if_false]
  rfl

/-- Claim C4: at the `WAITING_COINS` stage an integer price `c` is accepted
(the wizard advances to the start-time stage) iff `c` is non-negative and
does not exceed `(historySold + 1) * 1000 * (sanity/100)^10`; a price beyond
the bound re-enters the same stage with "⚠️ 金额过大" and unchanged
parameters.  A seller with trust 100 and 0 prior sales asking 5000 is
refused because the bound computes to 1000.  Listing creation and listing
edit run this same branch (the edit flow re-enters the wizard with
`trade_modify` set, which only changes the prompts). -/
theorem waiting_coins_price_cap (p : List (String × String)) (text : String)
    (c sanity : Int) (n : Nat) (hs : starts_with_slash text = false) :
    ((text_step ⟨ConversationStatus.WAITING_COINS, p⟩ text (some c) sanity n).2 =
        Action.menu "__trade_set_start_time" (dict_update p "trade_coins" (toString c)) ↔
      0 ≤ c ∧ (c : ℚ) ≤ ((n : ℚ) + 1) * 1000 * ((sanity : ℚ) / 100) ^ 10) ∧
    (((n : ℚ) + 1) * 1000 * ((sanity : ℚ) / 100) ^ 10 < (c : ℚ) →
      text_step ⟨ConversationStatus.WAITING_COINS, p⟩ text (some c) sanity n =
        (some ⟨ConversationStatus.WAITING_COINS, p⟩,
         Action.reply "⚠️ 金额过大, 请进行更多交易或提升信用.")) ∧
    (text_step ⟨ConversationStatus.WAITING_COINS, []⟩ "5000" (some 5000) 100 0).2 =
      Action.reply "⚠️ 金额过大, 请进行更多交易或提升信用." := by
  have hstep := waiting_coins_eval p text c sanity n hs
  have hscen : (text_step ⟨ConversationStatus.WAITING_COINS, []⟩ "5000" (some 5000) 100 0).2 =
      Action.reply "⚠️ 金额过大, 请进行更多交易或提升信用." := by
    rw [waiting_coins_eval [] "5000" 5000 100 0 (by decide), if_pos (by norm_num)]
  refine ⟨?_, fun hlt => by rw [hstep, if_pos hlt], hscen⟩
  rw [hstep]
  by_cases hlt : ((n : ℚ) + 1) * 1000 * ((sanity : ℚ) / 100) ^ 10 < (c : ℚ)
  · rw [if_pos hlt]
    constructor
    · intro h
      exact absurd h (by simp)
    · rintro ⟨-, hle⟩
      exact absurd hlt (not_lt.mpr hle)
  · rw [if_neg hlt]
    by_cases hneg : c < 0
    · rw [if_pos hneg]
      constructor
      · intro h
        exact absurd h (by simp)
      · rintro ⟨hge, -⟩
        exact absurd hneg (not_lt.mpr hge)
    · rw [if_neg hneg]
      constructor
      · exact fun _ => ⟨not_lt.mp hneg, not_lt.mp hlt⟩
      · exact fun _ => rfl

/-- Witness for C4: price 7 is accepted at trust 100 with 0 prior sales;
price 2000 is refused there with the over-bound re-prompt. -/
theorem waiting_coins_price_cap_witness :
    (text_step ⟨ConversationStatus.WAITING_COINS, []⟩ "7" (some 7) 100 0).2 =
      Action.menu "__trade_set_start_time" (dict_update [] "trade_coins" (toString (7 : Int))) ∧
    text_step ⟨ConversationStatus.WAITING_COINS, []⟩ "2000" (some 2000) 100 0 =
      (some ⟨ConversationStatus.WAITING_COINS, []⟩,
       Action.reply "⚠️ 金额过大, 请进行更多交易或提升信用.") :=
  ⟨(waiting_coins_price_cap [] "7" 7 100 0 (by decide)).1.mpr (by norm_num),
   (waiting_coins_price_cap [] "2000" 2000 100 0 (by decide)).2.1 (by norm_num)⟩

/-- Claim C5 is refuted by `Bot.on_violation`: the admin violation ruling
subtracts 30 from the owner's trust with no clamp, so an owner with trust 20
ends at -10, outside `[0, 100]`. -/
theorem violation_ruling_unclamped :
    on_violation 20 = (TradeStatus.VIOLATION, -10) ∧ (on_violation 20).2 < 0 := by
  decide

/-- Claim C6: the price-based purchase guard does refuse an under-funded
buyer before any mutation, but the post-trade branch of
`Bot.on_report_accept` debits `price/2` unconditionally: with the reportee at
balance 0 and the trade priced 10, the reportee's balance becomes -5 < 0
instead of the operation failing. -/
theorem report_accept_debits_unchecked :
    on_exchange_coin 0 ⟨TradeStatus.LAUNCHED, 0, false, false, 10⟩ false 5 0 =
      CoinPurchase.insufficient ∧
    (on_report_accept_posttrade 10 3 ⟨0, 0, 50⟩).2.reporteeCoins = -5 ∧
    (on_report_accept_posttrade 10 3 ⟨0, 0, 50⟩).2.reporteeCoins < 0 := by
  refine ⟨rfl, ?_, ?_⟩ <;> norm_num [on_report_accept_posttrade]

/-- Claim C7 is refuted on the availability clause: in `Bot.check_trade` the
future-availability test is nested under a repeated `status != LAUNCHED`
guard that has already returned, so a `LAUNCHED` trade whose availability
timestamp is in the future (here `available = 100 > now = 0`) passes the
guard and a proposal is created (`on_exchange_submitted` reaches the
`Exchange.create` path instead of failing). -/
theorem future_availability_not_enforced :
    check_trade 0 ⟨TradeStatus.LAUNCHED, 100, false, true, 0⟩ false = none ∧
    on_exchange_submitted 0 ⟨TradeStatus.LAUNCHED, 100, false, true, 0⟩ false 50 50 =
      SubmitResult.waiting := by
  exact ⟨rfl, rfl⟩

/-- Counterexample to claim C8: a `SOLD` listing with no disputes, which the
claim says may be soft-deleted, is refused by `Bot.on_delete` because its
guard requires `status ≥ DISPUTED` (numeric value 70 > SOLD's 50). -/
theorem delete_sold_listing_refused :
    on_delete TradeStatus.SOLD false 0 = DeleteResult.refused "⚠️ 无法删除争议交易." := by
  decide

/-- Claim C8 as amended: soft delete is refused while any Dispute references
the listing, refused when the listing is already deleted, and permitted only
when `status ≥ DISPUTED` (i.e. disputed-resolved or violation — not sold or
timed-out); when permitted it only sets the deleted flag. -/
theorem delete_guard_characterization (status : TradeStatus) (deleted : Bool) (d : Nat) :
    (on_delete status deleted d = DeleteResult.ok status true ↔
      deleted = false ∧ TradeStatus.DISPUTED.val ≤ status.val ∧ d = 0) ∧
    (deleted = true → on_delete status deleted d = DeleteResult.refused "⚠️ 交易已经被删除.") := by
  constructor
  · constructor
    · intro h
      unfold on_delete at h
      by_cases h1 : deleted = true
      · rw [if_pos h1] at h
        simp at h
      · rw [if_neg h1] at h
        by_cases h2 : status.val < TradeStatus.DISPUTED.val
        · rw [if_pos h2] at h
          simp at h
        · rw [if_neg h2] at h
          by_cases h3 : d ≠ 0
          · rw [if_pos h3] at h
            simp at h
          · rw [if_neg h3] at h
            exact ⟨by simpa using h1, not_lt.mp h2, by simpa using h3⟩
    · rintro ⟨h1, h2, h3⟩
      unfold on_delete
      rw [if_neg (by simp [h1]), if_neg (not_lt.mpr h2), if_neg (by simp [h3])]
  · intro h
    unfold on_delete
    rw [if_pos h]

/-- Witness for C8's amended theorem: a dispute-resolved listing with no
disputes is deleted (only the flag changes); an already-deleted listing is
refused. -/
theorem delete_guard_characterization_witness :
    on_delete TradeStatus.DISPUTED false 0 = DeleteResult.ok TradeStatus.DISPUTED true ∧
    on_delete TradeStatus.SOLD true 0 = DeleteResult.refused "⚠️ 交易已经被删除." :=
  ⟨(delete_guard_characterization TradeStatus.DISPUTED false 0).1.mpr (by decide),
   (delete_guard_characterization TradeStatus.SOLD true 0).2 rfl⟩

/-- Claim C9 is refuted at the numeric price stage: on non-numeric input the
source sets `retry = True` in the `except ValueError` handler but then
unconditionally evaluates the price-cap comparison, reading the local
`coins` that was never assigned; Python raises `UnboundLocalError`, the
`useroper` wrapper answers the generic "⚠️ 发生错误." and the stage is never
re-prompted (the store entry survives only because nothing touches it). -/
theorem coins_stage_nonnumeric_crash :
    text_step ⟨ConversationStatus.WAITING_COINS, [("trade_name", "x")]⟩ "abc" none 100 0 =
      (some ⟨ConversationStatus.WAITING_COINS, [("trade_name", "x")]⟩, Action.crash) := by
  rfl

/-- Counterexample to claim C10: a reporter with trust 0 against an owner
with trust 100 is refused by the sanity guard of `Bot.on_report` — no
Dispute is created and the owner's trust is not debited, contrary to the
claim's unconditional "for every reporter". -/
theorem report_low_trust_reporter_refused :
    on_report false 0 100 none =
      { refusedMsg := some "⚠️ 您的信誉值低于70或低于对方, 无法举报."
        answer := "⚠️ 您的信誉值低于70或低于对方, 无法举报."
        ownerSanity := 100, dispute := none } := by
  decide

/-- Claim C10 as amended: provided the owner does not hold `admin_trade` and
the reporter's trust is at least `max(ownerTrust - 10, 70)`, `Bot.on_report`
is a toggle: with no existing VIOLATION dispute by this reporter it creates
one with influence 10 and sets the owner's trust to `max(trust - 10, 0)`;
with an existing one of influence `i` it deletes it and sets the owner's
trust to `min(trust + i, 100)`; reporting twice from an initial owner trust
in `[10, 100]` restores the initial trust and leaves no dispute. -/
theorem report_toggle (rs os i : Int) (hs : max (os - 10) 70 ≤ rs) :
    on_report false rs os none =
      { refusedMsg := none, answer := "✅ 成功举报."
        ownerSanity := max (os - 10) 0, dispute := some 10 } ∧
    on_report false rs os (some i) =
      { refusedMsg := none, answer := "✅ 成功取消举报."
        ownerSanity := min (os + i) 100, dispute := none } ∧
    (10 ≤ os → os ≤ 100 →
      (on_report false rs (on_report false rs os none).ownerSanity
          (on_report false rs os none).dispute).ownerSanity = os ∧
      (on_report false rs (on_report false rs os none).ownerSanity
          (on_report false rs os none).dispute).dispute = none) := by
  have hg1 : ¬ rs < max (os - 10) 70 := not_lt.mpr hs
  have e1 : on_report false rs os none =
      { refusedMsg := none, answer := "✅ 成功举报."
        ownerSanity := max (os - 10) 0, dispute := some 10 } := by
    unfold on_report
    rw [if_neg Bool.false_ne_true, if_neg hg1]
  have e2 : on_report false rs os (some i) =
      { refusedMsg := none, answer := "✅ 成功取消举报."
        ownerSanity := min (os + i) 100, dispute := none } := by
    unfold on_report
    rw [if_neg Bool.false_ne_true, if_neg hg1]
  refine ⟨e1, e2, fun h1 h2 => ?_⟩
  rw [e1]
  have hg2 : ¬ rs < max (max (os - 10) 0 - 10) 70 := by omega
  unfold on_report
  rw [if_neg Bool.false_ne_true, if_neg hg2]
  constructor
  · simp only []
    omega
  · rfl

/-- Witness for C10's amended theorem: a trust-100 reporter reporting an
owner at trust 50 debits the owner to 40 and creates the dispute; reporting
again restores trust 50 and removes the dispute. -/
theorem report_toggle_witness :
    on_report false 100 50 none =
      { refusedMsg := none, answer := "✅ 成功举报."
        ownerSanity := max (50 - 10) 0, dispute := some 10 } ∧
    (on_report false 100 (on_report false 100 50 none).ownerSanity
        (on_report false 100 50 none).dispute).ownerSanity = 50 ∧
    (on_report false 100 (on_report false 100 50 none).ownerSanity
        (on_report false 100 50 none).dispute).dispute = none :=
  ⟨(report_toggle 100 50 0 (by decide)).1,
   ((report_toggle 100 50 0 (by decide)).2.2 (by decide) (by decide)).1,
   ((report_toggle 100 50 0 (by decide)).2.2 (by decide) (by decide)).2⟩

end IWExchanger
